import Mathlib

/-!
Verification of the payment / subscription lifecycle engine of the
Retgrow Learn API (Python/FastAPI source) against its natural-language
specification.

The Python source is shallowly embedded: database rows become records,
the database session becomes an explicit state value, async provider
calls become explicit argument values (the value the provider call
returns, or the exception it raises), and python exceptions become
Except results.  Money is the Decimal Naira amount of the source; every
amount occurring in the system (the pricing table and the minor-unit
conversions by a factor of 100) is integral, so it is modelled as Int.
Datetimes are modelled as an abstract Nat timeline measured in days,
which is the granularity the source uses (timedelta of 30 or 365 days).

The SQLAlchemy models Subscription and PaymentTransaction are imported
by the payment modules from src.models.models but are not present in
that file; their shape is reconstructed from their uses in the payment,
subscription and recurring services, and where a detail is not
determined by any use site it is modelled from the spec (marked below).
-/

/-- Subscription plan enum, as used by the payment and subscription
services (FREE, FOCUSED, PRO). -/
inductive SubscriptionPlan
  | FREE
  | FOCUSED
  | PRO
deriving DecidableEq, Repr

/-- Billing cycle enum (MONTHLY, YEARLY). -/
inductive BillingCycle
  | MONTHLY
  | YEARLY
deriving DecidableEq, Repr

/-- Subscription status enum.  ACTIVE and CANCELLED are written by the
services; EXPIRED is additionally read by the recurring service query,
so it is a member of the stored enum. -/
inductive SubscriptionStatus
  | ACTIVE
  | CANCELLED
  | EXPIRED
deriving DecidableEq, Repr

/-- Payment transaction status enum (PENDING, SUCCESS, FAILED). -/
inductive PaymentStatus
  | PENDING
  | SUCCESS
  | FAILED
deriving DecidableEq, Repr

/-- Payment provider enum (PAYSTACK, OPAY, STRIPE). -/
inductive PaymentProvider
  | PAYSTACK
  | OPAY
  | STRIPE
deriving DecidableEq, Repr

/-- Modelled from the spec: the Subscription row (the SQLAlchemy model is
missing from src/models/models.py).  Fields follow the spec data model
(section 3) and every use site in the services: id, user_id, plan,
billing_cycle (null for FREE rows), status, start_date, end_date (null
for FREE rows), auto_renew, payment_provider, payment_token and
created_at. -/
structure Subscription where
  id : Nat
  user_id : Nat
  plan : SubscriptionPlan
  billing_cycle : Option BillingCycle
  status : SubscriptionStatus
  start_date : Nat
  end_date : Option Nat
  auto_renew : Bool
  payment_provider : Option PaymentProvider
  payment_token : Option String
  created_at : Nat
deriving DecidableEq, Repr

/-- Metadata dictionary of a payment transaction: string keys to
optional string values (a None value models a python None stored under
the key, as in error keys fed from a missing error message). -/
abbrev MetaDict : Type := List (String × Option String)

/-- Dictionary update, modelling the python merge of a dict with one
extra key (the new binding wins over an old binding of the same key). -/
def metaSet (m : MetaDict) (k : String) (v : Option String) : MetaDict :=
  (List.filter (fun kv => kv.1 != k) m) ++ [(k, v)]

/-- Modelled from the spec: the PaymentTransaction row (the SQLAlchemy
model is missing from src/models/models.py).  Fields follow the spec
data model (section 3) and every use site in the services. -/
structure PaymentTransaction where
  user_id : Nat
  subscription_id : Option Nat
  amount : Int
  currency : String
  provider : PaymentProvider
  reference : String
  external_reference : Option String
  status : PaymentStatus
  plan : SubscriptionPlan
  billing_cycle : BillingCycle
  payment_metadata : MetaDict
  completed_at : Option Nat
deriving DecidableEq, Repr

/-- The relevant database state: the subscriptions table, the payment
transactions table, and a counter supplying fresh primary keys for
inserted subscription rows. -/
structure DBState where
  subscriptions : List Subscription
  transactions : List PaymentTransaction
  nextId : Nat
deriving DecidableEq, Repr

/-! ### Generic list helpers used by the embedding -/

/-- Replace the first element satisfying p by its image under f,
modelling an ORM update of the row a query returned. -/
def updateFirst (p : α → Bool) (f : α → α) : List α → List α
  | [] => []
  | a :: as => if p a then f a :: as else a :: updateFirst p f as

/-- Strict lexicographic comparison on Nat pairs: a is strictly greater
than b. -/
def keyGt (a b : Nat × Nat) : Bool :=
  b.1 < a.1 || (a.1 == b.1 && b.2 < a.2)

/-- First element of the list whose key is lexicographically maximal,
modelling the first row of an ORDER BY key DESC query (equivalently
sorted with reverse=True, a stable sort, indexed at 0). -/
def pickFirstMax (key : α → Nat × Nat) : List α → Option α
  | [] => none
  | a :: as => some (as.foldl (fun b t => if keyGt (key t) (key b) then t else b) a)

/-- Keys of a list in first-occurrence order, each once, modelling the
key order of a python dict built by insertion. -/
def dedupKeys (l : List Nat) : List Nat :=
  l.foldl (fun acc a => if acc.contains a then acc else acc ++ [a]) []

/-! ### src/modules/payments/schemas.py -/

/-- Monthly price of a plan in Naira, from the PLAN_PRICING table. -/
def monthly_price : SubscriptionPlan → Int
  | SubscriptionPlan.FREE => 0
  | SubscriptionPlan.FOCUSED => 700
  | SubscriptionPlan.PRO => 1500

/-- Yearly price of a plan in Naira, from the PLAN_PRICING table. -/
def yearly_price : SubscriptionPlan → Int
  | SubscriptionPlan.FREE => 0
  | SubscriptionPlan.FOCUSED => 6000
  | SubscriptionPlan.PRO => 12000

/-- get_plan_amount of src/modules/payments/schemas.py.  The billing
cycle argument is dynamically typed in the source; the subscription
row passes a nullable cycle, and anything other than MONTHLY (None
included) takes the else branch, as in the source conditional. -/
def get_plan_amount (plan : SubscriptionPlan) (billing_cycle : Option BillingCycle) : Int :=
  if billing_cycle == some BillingCycle.MONTHLY then monthly_price plan else yearly_price plan

/-! ### src/modules/payments/payment_service.py -/

namespace PaymentService

/-- calculate_end_date of payment_service.py (identical in
subscription_service.py): now plus 30 days for MONTHLY, else now plus
365 days.  now is passed explicitly since the source reads the clock. -/
def calculate_end_date (billing_cycle : Option BillingCycle) (now : Nat) : Nat :=
  if billing_cycle == some BillingCycle.MONTHLY then now + 30 else now + 365

/-- get_active_subscription of payment_service.py: the subscription of
the user with status ACTIVE, newest created_at first. -/
def get_active_subscription (user_id : Nat) (subs : List Subscription) : Option Subscription :=
  pickFirstMax (fun s => (0, s.created_at))
    (subs.filter (fun s => s.user_id == user_id && s.status == SubscriptionStatus.ACTIVE))

/-- Result value of a provider verify_payment call
(PaymentVerifyResult dataclass of providers/base.py). -/
structure PaymentVerifyResult where
  success : Bool
  status : String
  amount : Option Int
  currency : Option String
  external_reference : Option String
  error_message : Option String
  raw_response : Option String
deriving DecidableEq, Repr

/-- Dictionary returned by verify_and_activate_subscription: reference,
status, optionally plan and billing_cycle (present only on the fresh
success path), and a message. -/
structure VerifyOutcome where
  reference : String
  status : PaymentStatus
  plan : Option SubscriptionPlan
  billing_cycle : Option BillingCycle
  message : String
deriving DecidableEq, Repr

/-- Full observable result of one verify_and_activate_subscription call:
the database state after it, the returned dictionary, and whether the
payment provider was contacted during the call. -/
structure VerifyCallResult where
  state : DBState
  outcome : VerifyOutcome
  providerCalled : Bool
deriving DecidableEq, Repr

/-- verify_and_activate_subscription of payment_service.py.  The value
verify_result stands for what provider.verify_payment(reference) returns
when it is reached; it is consumed only on the non-terminal path, and
providerCalled records whether that call happened.  A raised ValueError
is the Except.error case. -/
def verify_and_activate_subscription (reference : String) (verify_result : PaymentVerifyResult)
    (now : Nat) (st : DBState) : Except String VerifyCallResult :=
  match st.transactions.find? (fun t => t.reference == reference) with
  | none => Except.error ("Transaction not found: " ++ reference)
  | some transaction =>
    if transaction.status == PaymentStatus.SUCCESS || transaction.status == PaymentStatus.FAILED then
      Except.ok
        { state := st
          outcome :=
            { reference := reference
              status := transaction.status
              plan := none
              billing_cycle := none
              message := "Transaction already processed" }
          providerCalled := false }
    else if verify_result.success then
      let txS : PaymentTransaction :=
        { transaction with
          status := PaymentStatus.SUCCESS
          completed_at := some now
          external_reference := verify_result.external_reference
          payment_metadata :=
            metaSet transaction.payment_metadata "verification_response" verify_result.raw_response }
      match get_active_subscription transaction.user_id st.subscriptions with
      | some subscription =>
        let subU : Subscription :=
          { subscription with
            plan := transaction.plan
            billing_cycle := some transaction.billing_cycle
            status := SubscriptionStatus.ACTIVE
            start_date := now
            end_date := some (calculate_end_date (some transaction.billing_cycle) now)
            payment_provider := some transaction.provider }
        let txS2 : PaymentTransaction := { txS with subscription_id := some subscription.id }
        Except.ok
          { state :=
              { subscriptions :=
                  updateFirst (fun s => s == subscription) (fun _ => subU) st.subscriptions
                transactions :=
                  updateFirst (fun t => t.reference == reference) (fun _ => txS2) st.transactions
                nextId := st.nextId }
            outcome :=
              { reference := reference
                status := PaymentStatus.SUCCESS
                plan := some transaction.plan
                billing_cycle := some transaction.billing_cycle
                message := "Subscription activated successfully" }
            providerCalled := true }
      | none =>
        -- auto_renew, payment_token and created_at are not passed by this
        -- constructor call; they come from column defaults of the missing
        -- model, modelled from the spec (auto_renew true on a new paid row,
        -- no stored token, created_at set to the current time).
        let newSub : Subscription :=
          { id := st.nextId
            user_id := transaction.user_id
            plan := transaction.plan
            billing_cycle := some transaction.billing_cycle
            status := SubscriptionStatus.ACTIVE
            start_date := now
            end_date := some (calculate_end_date (some transaction.billing_cycle) now)
            auto_renew := true
            payment_provider := some transaction.provider
            payment_token := none
            created_at := now }
        let txS2 : PaymentTransaction := { txS with subscription_id := some newSub.id }
        Except.ok
          { state :=
              { subscriptions := st.subscriptions ++ [newSub]
                transactions :=
                  updateFirst (fun t => t.reference == reference) (fun _ => txS2) st.transactions
                nextId := st.nextId + 1 }
            outcome :=
              { reference := reference
                status := PaymentStatus.SUCCESS
                plan := some transaction.plan
                billing_cycle := some transaction.billing_cycle
                message := "Subscription activated successfully" }
            providerCalled := true }
    else
      let txF : PaymentTransaction :=
        { transaction with
          status := PaymentStatus.FAILED
          payment_metadata :=
            metaSet transaction.payment_metadata "error" verify_result.error_message }
      Except.ok
        { state :=
            { st with
              transactions :=
                updateFirst (fun t => t.reference == reference) (fun _ => txF) st.transactions }
          outcome :=
            { reference := reference
              status := PaymentStatus.FAILED
              plan := none
              billing_cycle := none
              message := verify_result.error_message.getD "Payment verification failed" }
          providerCalled := true }

end PaymentService

/-! ### src/modules/payments/providers/ -/

namespace Providers

/-- Result value of a provider initialize_payment or charge_subscription
call (PaymentInitResult dataclass of providers/base.py). -/
structure PaymentInitResult where
  success : Bool
  authorization_url : Option String
  external_reference : Option String
  error_message : Option String
deriving DecidableEq, Repr

/-- Outcome of the one outbound HTTP call a provider method makes:
either a raised exception carrying its message (timeouts included), or
a response carrying a parsed JSON body. -/
inductive HttpOutcome (β : Type)
  | exn (msg : String)
  | resp (status_code : Nat) (body : β)
deriving DecidableEq, Repr

/-- Fields of the Paystack transaction-verify response body read by
verify_payment: the top level boolean status flag, and inside data the
transaction status string, the amount in kobo, the currency, and the
provider reference.  message is the error message used on a
non-success response. -/
structure PaystackVerifyBody where
  ok_flag : Bool
  tx_status : String
  amount_kobo : Int
  currency : Option String
  tx_reference : Option String
  message : Option String
deriving DecidableEq, Repr

/-- Lowercasing of a python str, modelled structurally so that it
evaluates (String.mapAux of core is not kernel reducible). -/
def pyLower (s : String) : String := String.mk (s.data.map Char.toLower)

/-- Paystack verify_payment of providers/paystack.py, as a function of
the outcome of its HTTP GET.  Every exception (a timeout included) is
caught and becomes a failure result with status error; a 200 response
with a truthy status flag maps the transaction status through, with
success exactly when that status is the string success; any other
response becomes a failure result with status failed.  The kobo amount
is scaled back to Naira by the integral factor 100. -/
def paystack_verify_payment (out : HttpOutcome PaystackVerifyBody) :
    PaymentService.PaymentVerifyResult :=
  match out with
  | HttpOutcome.exn e =>
    { success := false
      status := "error"
      amount := none
      currency := none
      external_reference := none
      error_message := some e
      raw_response := none }
  | HttpOutcome.resp code body =>
    if code == 200 && body.ok_flag then
      { success := pyLower body.tx_status == "success"
        status := pyLower body.tx_status
        amount := some (body.amount_kobo / 100)
        currency := some (body.currency.getD "NGN")
        external_reference := body.tx_reference
        error_message := none
        raw_response := some "verify_response" }
    else
      { success := false
        status := "failed"
        amount := none
        currency := none
        external_reference := none
        error_message := some (body.message.getD "Verification failed")
        raw_response := none }

/-- Paystack verify_webhook_signature of providers/paystack.py: false
when no secret key is configured, else a constant-time comparison of
the header with the HMAC-SHA512 hex digest of the raw payload.  The
HMAC primitive is abstract: hmac secret payload is its hex digest. -/
def paystack_verify_webhook_signature (hmac : String → String → String)
    (secret_key : String) (payload : String) (signature : String) : Bool :=
  if secret_key == "" then false
  else signature == hmac secret_key payload

/-- OPay verify_webhook_signature of providers/opay.py: same scheme as
Paystack except both sides are lowercased before comparison. -/
def opay_verify_webhook_signature (hmac : String → String → String)
    (secret_key : String) (payload : String) (signature : String) : Bool :=
  if secret_key == "" then false
  else pyLower signature == pyLower (hmac secret_key payload)

/-- Stripe verify_webhook_signature of providers/stripe_provider.py:
false when no webhook secret is configured, else the outcome of the
stripe construct_event check, abstracted as a boolean function of the
payload and the signature header. -/
def stripe_verify_webhook_signature (construct_event_ok : String → String → Bool)
    (webhook_secret : String) (payload : String) (signature : String) : Bool :=
  if webhook_secret == "" then false
  else construct_event_ok payload signature

/-- OPay charge_subscription of providers/opay.py: unconditionally an
unsupported-operation failure result. -/
def opay_charge_subscription (amount : Int) (email : String)
    (authorization_code : String) (reference : String) : PaymentInitResult :=
  { success := false
    authorization_url := none
    external_reference := none
    error_message := some "Recurring payment is not yet supported for OPay provider." }

/-- The charge_subscription capability of each registered provider.
BasePaymentProvider declares no such method and only OPayProvider
defines one, so a Paystack or Stripe lookup is none: calling it on
those providers raises AttributeError. -/
def provider_charge_subscription :
    PaymentProvider → Option (Int → String → String → String → PaymentInitResult)
  | PaymentProvider.PAYSTACK => none
  | PaymentProvider.OPAY => some opay_charge_subscription
  | PaymentProvider.STRIPE => none

end Providers

/-! ### Webhook endpoints of src/modules/payments/payment_controller.py -/

namespace PaymentController

/-- Truthiness of an optional string under python: present and
non-empty. -/
def strTruthy : Option String → Bool
  | none => false
  | some s => s != ""

/-- Python or on two optional strings: the first when truthy, else the
second. -/
def pyOr (a b : Option String) : Option String :=
  if strTruthy a then a else b

/-- Response of a webhook endpoint: 401, 400, or 200.  The 200 case
records the reference passed to verify_and_activate_subscription, when
that call was made (none models the acknowledged no-op paths, a raised
and swallowed ValueError included). -/
inductive WebhookResponse
  | unauthorized
  | badRequest
  | ok (verifiedReference : Option String)
deriving DecidableEq, Repr

/-- Fields of a parsed Paystack webhook event read by the endpoint. -/
structure PaystackEvent where
  event_type : Option String
  data_reference : Option String
deriving DecidableEq, Repr

/-- Fields of a parsed OPay webhook event read by the endpoint. -/
structure OpayEvent where
  data_reference : Option String
  top_reference : Option String
  data_status : Option String
deriving DecidableEq, Repr

/-- Fields of a parsed Stripe webhook event read by the endpoint. -/
structure StripeEvent where
  event_type : Option String
  client_reference_id : Option String
  metadata_reference : Option String
deriving DecidableEq, Repr

/-- paystack_webhook of payment_controller.py: verify the signature of
the raw body first and reject with 401 on failure; then parse JSON
(400 on failure); then on a charge.success event with a truthy
reference call verify_and_activate_subscription.  parsed stands for
the outcome of json.loads on the raw body. -/
def paystack_webhook (hmac : String → String → String) (secret_key : String)
    (raw_body : String) (signature : String) (parsed : Option PaystackEvent) :
    WebhookResponse :=
  if ¬ Providers.paystack_verify_webhook_signature hmac secret_key raw_body signature then
    WebhookResponse.unauthorized
  else
    match parsed with
    | none => WebhookResponse.badRequest
    | some event =>
      if event.event_type == some "charge.success" && strTruthy event.data_reference then
        WebhookResponse.ok event.data_reference
      else
        WebhookResponse.ok none

/-- opay_webhook of payment_controller.py.  The signature check is
guarded by the truthiness of the header: a request with an absent or
empty x-opay-signature header skips verification entirely. -/
def opay_webhook (hmac : String → String → String) (secret_key : String)
    (raw_body : String) (signature : String) (parsed : Option OpayEvent) :
    WebhookResponse :=
  if signature != "" && ¬ Providers.opay_verify_webhook_signature hmac secret_key raw_body signature then
    WebhookResponse.unauthorized
  else
    match parsed with
    | none => WebhookResponse.badRequest
    | some event =>
      let reference := pyOr event.data_reference event.top_reference
      let status_value := Providers.pyLower (event.data_status.getD "")
      if strTruthy reference && status_value == "success" then
        WebhookResponse.ok reference
      else
        WebhookResponse.ok none

/-- stripe_webhook of payment_controller.py: verify the signature of
the raw body first and reject with 401 on failure; then parse JSON;
then on a checkout.session.completed event with a truthy reference
(client_reference_id, else the metadata reference) call
verify_and_activate_subscription. -/
def stripe_webhook (construct_event_ok : String → String → Bool) (webhook_secret : String)
    (raw_body : String) (signature : String) (parsed : Option StripeEvent) :
    WebhookResponse :=
  if ¬ Providers.stripe_verify_webhook_signature construct_event_ok webhook_secret raw_body signature then
    WebhookResponse.unauthorized
  else
    match parsed with
    | none => WebhookResponse.badRequest
    | some event =>
      let reference := pyOr event.client_reference_id event.metadata_reference
      if event.event_type == some "checkout.session.completed" && strTruthy reference then
        WebhookResponse.ok reference
      else
        WebhookResponse.ok none

end PaymentController

/-! ### src/modules/subscriptions/subscription_service.py -/

namespace SubscriptionService

/-- Validity filter of the subscription_service queries: status ACTIVE,
or status CANCELLED with end_date still in the future (grace
period). -/
def is_valid_row (now : Nat) (s : Subscription) : Bool :=
  s.status == SubscriptionStatus.ACTIVE ||
    (s.status == SubscriptionStatus.CANCELLED &&
      (match s.end_date with
       | some d => decide (now < d)
       | none => false))

/-- get_active_subscription of subscription_service.py: the newest
(by created_at) row of the user that is ACTIVE or CANCELLED within its
grace period. -/
def get_active_subscription (user_id : Nat) (now : Nat) (subs : List Subscription) :
    Option Subscription :=
  pickFirstMax (fun s => (0, s.created_at))
    (subs.filter (fun s => s.user_id == user_id && is_valid_row now s))

/-- Priority map of get_best_valid_subscription: PRO 3, FOCUSED 2,
FREE 1. -/
def plan_priority : SubscriptionPlan → Nat
  | SubscriptionPlan.PRO => 3
  | SubscriptionPlan.FOCUSED => 2
  | SubscriptionPlan.FREE => 1

/-- get_best_valid_subscription of subscription_service.py: among the
valid rows of the user, the first under descending (priority,
created_at) order. -/
def get_best_valid_subscription (user_id : Nat) (now : Nat) (subs : List Subscription) :
    Option Subscription :=
  pickFirstMax (fun s => (plan_priority s.plan, s.created_at))
    (subs.filter (fun s => s.user_id == user_id && is_valid_row now s))

/-- Dictionary returned by cancel_subscription. -/
structure CancelOutcome where
  message : String
  end_date : Option Nat
deriving DecidableEq, Repr

/-- cancel_subscription of subscription_service.py: find the effective
row via get_active_subscription (grace-period rows included); raise
when there is none or when it is the FREE plan; otherwise set status
CANCELLED and auto_renew false on that row and return the confirmation
with its end_date. -/
def cancel_subscription (user_id : Nat) (now : Nat) (st : DBState) :
    Except String (DBState × CancelOutcome) :=
  match get_active_subscription user_id now st.subscriptions with
  | none => Except.error "No active subscription found"
  | some subscription =>
    if subscription.plan == SubscriptionPlan.FREE then
      Except.error "Cannot cancel free plan"
    else
      let subU : Subscription :=
        { subscription with
          status := SubscriptionStatus.CANCELLED
          auto_renew := false }
      Except.ok
        ({ st with
           subscriptions :=
             updateFirst (fun s => s == subscription) (fun _ => subU) st.subscriptions },
         { message := "Subscription cancelled. Access continues until end of billing period."
           end_date := subscription.end_date })

end SubscriptionService

/-! ### src/modules/subscriptions/recurring_service.py -/

namespace RecurringService

/-- Candidate filter of the broad query in process_due_subscriptions:
status ACTIVE or EXPIRED, auto_renew set, end_date due (a null
end_date fails the SQL comparison), a stored payment token, and a
non-FREE plan. -/
def is_renewal_candidate (now : Nat) (s : Subscription) : Bool :=
  (s.status == SubscriptionStatus.ACTIVE || s.status == SubscriptionStatus.EXPIRED) &&
  s.auto_renew &&
  (match s.end_date with
   | some d => decide (d ≤ now)
   | none => false) &&
  s.payment_token.isSome &&
  s.plan != SubscriptionPlan.FREE

/-- Sort key of the per-user deduplication: status ACTIVE first, then
newest created_at. -/
def renewal_key (s : Subscription) : Nat × Nat :=
  ((if s.status == SubscriptionStatus.ACTIVE then 1 else 0), s.created_at)

/-- Candidate selection of process_due_subscriptions: filter the table
by the broad query, group the rows by user id (python dict, insertion
order), and keep for each user the first row under descending
(is ACTIVE, created_at) order. -/
def select_renewals (subs : List Subscription) (now : Nat) : List Subscription :=
  let cands := subs.filter (is_renewal_candidate now)
  let users := dedupKeys (cands.map (fun s => s.user_id))
  users.filterMap (fun u => pickFirstMax renewal_key (cands.filter (fun s => s.user_id == u)))

/-- Observable outcome of one renew_subscription call once the charge
call has returned a result: the boolean the function returns, the
subscription row as left by the call, the payment transactions it
added, and the subscription email types it triggered. -/
structure RenewResult where
  renewed : Bool
  subscription : Subscription
  txAdded : List PaymentTransaction
  notifications : List String
deriving DecidableEq, Repr

/-- Body of renew_subscription of recurring_service.py from the point
where provider.charge_subscription has returned charge_result, for a
row whose payment_provider is already set (the code path that can
receive a result at all: a provider without the method raises before
this point).  A renewal transaction is recorded with status SUCCESS or
FAILED after the charge outcome; on success end_date becomes now plus
the cycle length and status is set ACTIVE, on failure the row is left
untouched; the matching subscription email is triggered either way. -/
def renew_subscription_core (sub : Subscription) (reference : String)
    (charge_result : Providers.PaymentInitResult) (now : Nat) : RenewResult :=
  let amount := get_plan_amount sub.plan sub.billing_cycle
  let transaction : PaymentTransaction :=
    { user_id := sub.user_id
      subscription_id := some sub.id
      amount := amount
      currency := "NGN"
      provider := sub.payment_provider.getD PaymentProvider.PAYSTACK
      reference := reference
      external_reference := charge_result.external_reference
      status := if charge_result.success then PaymentStatus.SUCCESS else PaymentStatus.FAILED
      plan := sub.plan
      billing_cycle := sub.billing_cycle.getD BillingCycle.YEARLY
      payment_metadata := [("type", some "renewal"), ("error", charge_result.error_message)]
      completed_at := none }
  if charge_result.success then
    { renewed := true
      subscription :=
        { sub with
          end_date := some (PaymentService.calculate_end_date sub.billing_cycle now)
          status := SubscriptionStatus.ACTIVE }
      txAdded := [transaction]
      notifications := ["renewed"] }
  else
    { renewed := false
      subscription := sub
      txAdded := [transaction]
      notifications := ["failed"] }

/-- renew_subscription of recurring_service.py.  A null
payment_provider is first defaulted to PAYSTACK on the row; then the
charge_subscription method is looked up on the provider instance: when
the provider does not define it the call raises AttributeError
(Except.error) with nothing recorded, otherwise the call returns the
provider result and the rest of the function runs. -/
def renew_subscription (sub : Subscription) (email : String) (reference : String)
    (now : Nat) : Except String RenewResult :=
  let sub1 :=
    if sub.payment_provider == none then
      { sub with payment_provider := some PaymentProvider.PAYSTACK }
    else sub
  match Providers.provider_charge_subscription (sub1.payment_provider.getD PaymentProvider.PAYSTACK) with
  | none => Except.error "AttributeError: charge_subscription"
  | some charge =>
    let amount := get_plan_amount sub1.plan sub1.billing_cycle
    Except.ok
      (renew_subscription_core sub1 reference
        (charge amount email (sub1.payment_token.getD "") reference) now)

/-- Per-candidate processing of process_due_subscriptions: a raised
exception is caught, counted as failed, and nothing is recorded for
that candidate. -/
def process_renewal (sub : Subscription) (email : String) (reference : String)
    (now : Nat) : Bool × List PaymentTransaction × List String :=
  match renew_subscription sub email reference now with
  | Except.ok r => (r.renewed, r.txAdded, r.notifications)
  | Except.error _ => (false, [], [])

end RecurringService

/-! ### src/modules/subscriptions/access_control_service.py -/

namespace AccessControl

/-- Plan resolution of the helper _get_user_plan: the plan of the best
valid subscription, defaulting to FREE. -/
def get_user_plan (user_id : Nat) (now : Nat) (subs : List Subscription) : SubscriptionPlan :=
  match SubscriptionService.get_best_valid_subscription user_id now subs with
  | some s => s.plan
  | none => SubscriptionPlan.FREE

/-- Decision body of check_module_access for a resolved plan: PRO
always passes; a zero-price course passes; a free module passes; a
FOCUSED plan additionally passes when the course is in the enrolled
learning-path track; everything else is denied.
course_in_learning_path stands for the outcome of the learning-path
and track-membership queries made inside the FOCUSED branch. -/
def module_access_decision (plan : SubscriptionPlan) (course_price : Int)
    (module_is_free : Bool) (course_in_learning_path : Bool) : Bool :=
  if plan == SubscriptionPlan.PRO then true
  else if course_price == 0 then true
  else if module_is_free then true
  else if plan == SubscriptionPlan.FOCUSED then course_in_learning_path
  else false

/-- Observable result of one check_module_access call: the decision and
whether the subscription table was queried to resolve the plan. -/
structure ModuleAccessCall where
  allowed : Bool
  looked_up_subscription : Bool
deriving DecidableEq, Repr

/-- check_module_access of access_control_service.py: when the optional
plan argument is supplied the subscription lookup is skipped, otherwise
the plan is resolved from the subscription table via _get_user_plan. -/
def check_module_access (plan_arg : Option SubscriptionPlan) (user_id : Nat)
    (subs : List Subscription) (now : Nat) (course_price : Int)
    (module_is_free : Bool) (course_in_learning_path : Bool) : ModuleAccessCall :=
  match plan_arg with
  | some plan =>
    { allowed := module_access_decision plan course_price module_is_free course_in_learning_path
      looked_up_subscription := false }
  | none =>
    { allowed :=
        module_access_decision (get_user_plan user_id now subs) course_price
          module_is_free course_in_learning_path
      looked_up_subscription := true }

/-- Plan a check_module_access call effectively uses: the supplied
argument when present, else the resolved plan. -/
def resolved_plan (plan_arg : Option SubscriptionPlan) (user_id : Nat) (now : Nat)
    (subs : List Subscription) : SubscriptionPlan :=
  match plan_arg with
  | some plan => plan
  | none => get_user_plan user_id now subs

end AccessControl

/-! ### Helper lemmas about the generic list functions -/

theorem keyGt_iff {a b : Nat × Nat} :
    keyGt a b = true ↔ (b.1 < a.1 ∨ (a.1 = b.1 ∧ b.2 < a.2)) := by
  simp [keyGt, Bool.or_eq_true, Bool.and_eq_true, beq_iff_eq, decide_eq_true_eq]

theorem keyGt_false_iff {a b : Nat × Nat} :
    keyGt a b = false ↔ ¬ (b.1 < a.1 ∨ (a.1 = b.1 ∧ b.2 < a.2)) := by
  rw [← keyGt_iff]
  exact Bool.not_eq_true (keyGt a b) |>.symm ▸ Iff.rfl

theorem keyGt_self {a : Nat × Nat} : keyGt a a = false := by
  rw [keyGt_false_iff]
  omega

theorem keyGt_false_of_lt_of_le {a t r : Nat × Nat}
    (h2 : keyGt t a = true) (h1 : keyGt t r = false) : keyGt a r = false := by
  rw [keyGt_iff] at h2
  rw [keyGt_false_iff] at h1 ⊢
  omega

theorem keyGt_asymm {t b : Nat × Nat} (h : keyGt t b = true) : keyGt b t = false := by
  rw [keyGt_iff] at h
  rw [keyGt_false_iff]
  omega

theorem keyGt_false_trans {t a r : Nat × Nat}
    (h1 : keyGt t a = false) (h2 : keyGt a r = false) : keyGt t r = false := by
  rw [keyGt_false_iff] at h1 h2 ⊢
  omega

theorem foldl_pick_mem (key : α → Nat × Nat) (as : List α) (a : α) :
    (as.foldl (fun b t => if keyGt (key t) (key b) then t else b) a) ∈ a :: as := by
  induction as generalizing a with
  | nil => simp
  | cons t ts ih =>
    simp only [List.foldl_cons]
    by_cases hk : keyGt (key t) (key a)
    · rw [if_pos hk]
      rcases List.mem_cons.mp (ih t) with h | h
      · rw [h]
        simp
      · exact List.mem_cons_of_mem _ (List.mem_cons_of_mem _ h)
    · rw [if_neg hk]
      rcases List.mem_cons.mp (ih a) with h | h
      · rw [h]
        simp
      · exact List.mem_cons_of_mem _ (List.mem_cons_of_mem _ h)

theorem foldl_pick_max (key : α → Nat × Nat) (as : List α) (a : α) :
    ∀ x ∈ a :: as,
      keyGt (key x) (key (as.foldl (fun b t => if keyGt (key t) (key b) then t else b) a)) = false := by
  induction as generalizing a with
  | nil =>
    intro x hx
    simp at hx
    simp [hx, keyGt_self]
  | cons t ts ih =>
    intro x hx
    simp only [List.foldl_cons]
    by_cases hk : keyGt (key t) (key a)
    · rw [if_pos hk]
      have hmax := ih t
      rcases List.mem_cons.mp hx with hx1 | hx1
      · subst hx1
        exact keyGt_false_of_lt_of_le hk (hmax t (by simp))
      · exact hmax x hx1
    · rw [if_neg hk]
      have hmax := ih a
      rcases List.mem_cons.mp hx with hx1 | hx1
      · subst hx1
        exact hmax x (by simp)
      · rcases List.mem_cons.mp hx1 with hx2 | hx2
        · subst hx2
          exact keyGt_false_trans (by simpa using hk) (hmax a (by simp))
        · exact hmax x (by simp [hx2])

theorem pickFirstMax_mem {key : α → Nat × Nat} {l : List α} {s : α}
    (h : pickFirstMax key l = some s) : s ∈ l := by
  cases l with
  | nil => simp [pickFirstMax] at h
  | cons a as =>
    simp [pickFirstMax] at h
    subst h
    exact foldl_pick_mem key as a

theorem pickFirstMax_max {key : α → Nat × Nat} {l : List α} {s : α}
    (h : pickFirstMax key l = some s) : ∀ t ∈ l, keyGt (key t) (key s) = false := by
  cases l with
  | nil => simp [pickFirstMax] at h
  | cons a as =>
    simp [pickFirstMax] at h
    subst h
    exact foldl_pick_max key as a

theorem pickFirstMax_eq_none_iff {key : α → Nat × Nat} {l : List α} :
    pickFirstMax key l = none ↔ l = [] := by
  cases l <;> simp [pickFirstMax]

theorem updateFirst_length (p : α → Bool) (f : α → α) (l : List α) :
    (updateFirst p f l).length = l.length := by
  induction l with
  | nil => rfl
  | cons a as ih =>
    by_cases h : p a <;> simp [updateFirst, h, ih]

theorem mem_updateFirst {p : α → Bool} {f : α → α} {l : List α} {s : α}
    (h : s ∈ updateFirst p f l) : s ∈ l ∨ ∃ a ∈ l, p a = true ∧ s = f a := by
  induction l with
  | nil => simp [updateFirst] at h
  | cons a as ih =>
    by_cases hp : p a
    · simp [updateFirst, hp] at h
      rcases h with h | h
      · exact Or.inr ⟨a, by simp, hp, h⟩
      · exact Or.inl (by simp [h])
    · simp [updateFirst, hp] at h
      rcases h with h | h
      · exact Or.inl (by simp [h])
      · rcases ih h with h2 | ⟨b, hb, hpb, hs⟩
        · exact Or.inl (by simp [h2])
        · exact Or.inr ⟨b, by simp [hb], hpb, hs⟩

theorem updated_mem_updateFirst {p : α → Bool} {f : α → α} {l : List α}
    (h : ∃ a ∈ l, p a = true) : ∃ a ∈ l, p a = true ∧ f a ∈ updateFirst p f l := by
  induction l with
  | nil => simp at h
  | cons a as ih =>
    by_cases hp : p a
    · exact ⟨a, by simp, hp, by simp [updateFirst, hp]⟩
    · obtain ⟨b, hb, hpb⟩ := h
      rcases List.mem_cons.mp hb with hb1 | hb1
      · subst hb1
        exact absurd hpb (by simp [hp])
      · obtain ⟨c, hc, hpc, hmem⟩ := ih ⟨b, hb1, hpb⟩
        exact ⟨c, by simp [hc], hpc, by simp [updateFirst, hp, hmem]⟩

theorem find?_updateFirst {p : α → Bool} {f : α → α} {l : List α}
    (h : ∀ a, p a = true → p (f a) = true) :
    (updateFirst p f l).find? p = (l.find? p).map f := by
  induction l with
  | nil => rfl
  | cons a as ih =>
    by_cases hp : p a
    · simp [updateFirst, hp, List.find?_cons_of_pos, h a hp]
    · simp [updateFirst, hp, List.find?_cons_of_neg, ih]

theorem countP_updateFirst {p : α → Bool} {f : α → α} {q : α → Bool} {l : List α}
    (h : ∀ a, p a = true → q (f a) = q a) :
    List.countP q (updateFirst p f l) = List.countP q l := by
  induction l with
  | nil => rfl
  | cons a as ih =>
    by_cases hp : p a
    · simp [updateFirst, hp, List.countP_cons, h a hp]
    · simp [updateFirst, hp, List.countP_cons, ih]

theorem dedupKeys_foldl_nodup (l : List Nat) :
    ∀ acc : List Nat, acc.Nodup →
      (l.foldl (fun acc a => if acc.contains a then acc else acc ++ [a]) acc).Nodup := by
  induction l with
  | nil => intro acc h; simpa using h
  | cons a as ih =>
    intro acc h
    simp only [List.foldl_cons]
    by_cases hc : acc.contains a
    · rw [if_pos hc]
      exact ih acc h
    · rw [if_neg hc]
      refine ih (acc ++ [a]) ?_
      have hmem : a ∉ acc := by simpa using hc
      simp [List.nodup_append, h, hmem]

theorem dedupKeys_nodup (l : List Nat) : (dedupKeys l).Nodup :=
  dedupKeys_foldl_nodup l [] List.nodup_nil

theorem filterMap_pairwise_ne {g : Nat → Option Subscription} {users : List Nat}
    (hg : ∀ u s, g u = some s → s.user_id = u) (h : users.Nodup) :
    (users.filterMap g).Pairwise (fun a b => a.user_id ≠ b.user_id) := by
  induction users with
  | nil => simp
  | cons u us ih =>
    have hnd := List.nodup_cons.mp h
    cases hgu : g u with
    | none => simpa [List.filterMap_cons, hgu] using ih hnd.2
    | some s =>
      rw [List.filterMap_cons, hgu]
      refine List.pairwise_cons.mpr ⟨?_, ih hnd.2⟩
      intro t ht
      obtain ⟨v, hv, hgv⟩ := List.mem_filterMap.mp ht
      have htv : t.user_id = v := hg v t hgv
      have hsu : s.user_id = u := hg u s hgu
      rw [hsu, htv]
      intro huv
      exact hnd.1 (huv ▸ hv)

/-! ### Branch lemmas for verify_and_activate_subscription -/

namespace PaymentService

theorem verify_terminal_eq {st : DBState} {reference : String} {vr : PaymentVerifyResult}
    {now : Nat} {tx : PaymentTransaction}
    (hfind : st.transactions.find? (fun t => t.reference == reference) = some tx)
    (hterm : (tx.status == PaymentStatus.SUCCESS || tx.status == PaymentStatus.FAILED) = true) :
    verify_and_activate_subscription reference vr now st =
      Except.ok
        { state := st
          outcome :=
            { reference := reference
              status := tx.status
              plan := none
              billing_cycle := none
              message := "Transaction already processed" }
          providerCalled := false } := by
  simp [verify_and_activate_subscription, hfind, hterm]

theorem verify_terminal_status_eq {st : DBState} {reference : String}
    {vr : PaymentVerifyResult} {now : Nat} {tx : PaymentTransaction} {stat : PaymentStatus}
    (hfind : st.transactions.find? (fun t => t.reference == reference) = some tx)
    (hstat : tx.status = stat)
    (hterm : (stat == PaymentStatus.SUCCESS || stat == PaymentStatus.FAILED) = true) :
    verify_and_activate_subscription reference vr now st =
      Except.ok
        { state := st
          outcome :=
            { reference := reference
              status := stat
              plan := none
              billing_cycle := none
              message := "Transaction already processed" }
          providerCalled := false } := by
  subst hstat
  exact verify_terminal_eq hfind hterm

theorem verify_failure_eq {st : DBState} {reference : String} {vr : PaymentVerifyResult}
    {now : Nat} {tx : PaymentTransaction}
    (hfind : st.transactions.find? (fun t => t.reference == reference) = some tx)
    (hterm : (tx.status == PaymentStatus.SUCCESS || tx.status == PaymentStatus.FAILED) = false)
    (hs : vr.success = false) :
    verify_and_activate_subscription reference vr now st =
      Except.ok
        { state :=
            { st with
              transactions :=
                updateFirst (fun t => t.reference == reference)
                  (fun _ =>
                    { tx with
                      status := PaymentStatus.FAILED
                      payment_metadata := metaSet tx.payment_metadata "error" vr.error_message })
                  st.transactions }
          outcome :=
            { reference := reference
              status := PaymentStatus.FAILED
              plan := none
              billing_cycle := none
              message := vr.error_message.getD "Payment verification failed" }
          providerCalled := true } := by
  simp [verify_and_activate_subscription, hfind, hterm, hs]

theorem verify_success_update_eq {st : DBState} {reference : String} {vr : PaymentVerifyResult}
    {now : Nat} {tx : PaymentTransaction} {sub : Subscription}
    (hfind : st.transactions.find? (fun t => t.reference == reference) = some tx)
    (hterm : (tx.status == PaymentStatus.SUCCESS || tx.status == PaymentStatus.FAILED) = false)
    (hs : vr.success = true)
    (hact : get_active_subscription tx.user_id st.subscriptions = some sub) :
    verify_and_activate_subscription reference vr now st =
      Except.ok
        { state :=
            { subscriptions :=
                updateFirst (fun s => s == sub)
                  (fun _ =>
                    { sub with
                      plan := tx.plan
                      billing_cycle := some tx.billing_cycle
                      status := SubscriptionStatus.ACTIVE
                      start_date := now
                      end_date := some (calculate_end_date (some tx.billing_cycle) now)
                      payment_provider := some tx.provider })
                  st.subscriptions
              transactions :=
                updateFirst (fun t => t.reference == reference)
                  (fun _ =>
                    { tx with
                      status := PaymentStatus.SUCCESS
                      completed_at := some now
                      external_reference := vr.external_reference
                      payment_metadata :=
                        metaSet tx.payment_metadata "verification_response" vr.raw_response
                      subscription_id := some sub.id })
                  st.transactions
              nextId := st.nextId }
          outcome :=
            { reference := reference
              status := PaymentStatus.SUCCESS
              plan := some tx.plan
              billing_cycle := some tx.billing_cycle
              message := "Subscription activated successfully" }
          providerCalled := true } := by
  simp [verify_and_activate_subscription, hfind, hterm, hs, hact]

theorem verify_success_insert_eq {st : DBState} {reference : String} {vr : PaymentVerifyResult}
    {now : Nat} {tx : PaymentTransaction}
    (hfind : st.transactions.find? (fun t => t.reference == reference) = some tx)
    (hterm : (tx.status == PaymentStatus.SUCCESS || tx.status == PaymentStatus.FAILED) = false)
    (hs : vr.success = true)
    (hact : get_active_subscription tx.user_id st.subscriptions = none) :
    verify_and_activate_subscription reference vr now st =
      Except.ok
        { state :=
            { subscriptions :=
                st.subscriptions ++
                  [{ id := st.nextId
                     user_id := tx.user_id
                     plan := tx.plan
                     billing_cycle := some tx.billing_cycle
                     status := SubscriptionStatus.ACTIVE
                     start_date := now
                     end_date := some (calculate_end_date (some tx.billing_cycle) now)
                     auto_renew := true
                     payment_provider := some tx.provider
                     payment_token := none
                     created_at := now }]
              transactions :=
                updateFirst (fun t => t.reference == reference)
                  (fun _ =>
                    { tx with
                      status := PaymentStatus.SUCCESS
                      completed_at := some now
                      external_reference := vr.external_reference
                      payment_metadata :=
                        metaSet tx.payment_metadata "verification_response" vr.raw_response
                      subscription_id := some st.nextId })
                  st.transactions
              nextId := st.nextId + 1 }
          outcome :=
            { reference := reference
              status := PaymentStatus.SUCCESS
              plan := some tx.plan
              billing_cycle := some tx.billing_cycle
              message := "Subscription activated successfully" }
          providerCalled := true } := by
  simp [verify_and_activate_subscription, hfind, hterm, hs, hact]

theorem verify_not_found {st : DBState} {reference : String} {vr : PaymentVerifyResult}
    {now : Nat}
    (hfind : st.transactions.find? (fun t => t.reference == reference) = none) :
    verify_and_activate_subscription reference vr now st =
      Except.error ("Transaction not found: " ++ reference) := by
  simp [verify_and_activate_subscription, hfind]

end PaymentService

/-! ### Claim C1 -/


/-- C1 (amended): once the transaction referenced is terminal, a second
verify_and_activate_subscription call performs no side effects: the
state is returned unchanged, the provider is not contacted, and the
outcome carries the same reference and status as the first call
outcome; but its message is the cached-processing message and its plan
and billing_cycle fields are absent, so the full outcome dictionary is
not identical to the one of the first call. -/
theorem C1_second_call_cached (st : DBState) (reference : String)
    (vr₁ vr₂ : PaymentService.PaymentVerifyResult) (now₁ now₂ : Nat)
    (r₁ : PaymentService.VerifyCallResult)
    (h : PaymentService.verify_and_activate_subscription reference vr₁ now₁ st = Except.ok r₁) :
    PaymentService.verify_and_activate_subscription reference vr₂ now₂ r₁.state =
      Except.ok
        { state := r₁.state
          outcome :=
            { reference := reference
              status := r₁.outcome.status
              plan := none
              billing_cycle := none
              message := "Transaction already processed" }
          providerCalled := false } := by
  cases hfind : st.transactions.find? (fun t => t.reference == reference) with
  | none =>
    rw [PaymentService.verify_not_found hfind] at h
    simp at h
  | some tx =>
    have hp := List.find?_some hfind
    by_cases hterm : (tx.status == PaymentStatus.SUCCESS || tx.status == PaymentStatus.FAILED) = true
    · rw [PaymentService.verify_terminal_eq hfind hterm] at h
      injection h with h
      subst h
      exact PaymentService.verify_terminal_eq hfind hterm
    · have hterm2 : (tx.status == PaymentStatus.SUCCESS || tx.status == PaymentStatus.FAILED) = false := by
        revert hterm
        cases tx.status == PaymentStatus.SUCCESS || tx.status == PaymentStatus.FAILED <;> simp
      cases hvs : vr₁.success with
      | false =>
        rw [PaymentService.verify_failure_eq hfind hterm2 hvs] at h
        injection h with h
        subst h
        have hfind2 := @find?_updateFirst _ (fun t => t.reference == reference)
          (fun _ =>
            { tx with
              status := PaymentStatus.FAILED
              payment_metadata := metaSet tx.payment_metadata "error" vr₁.error_message })
          st.transactions (fun a _ => hp)
        rw [hfind, Option.map_some'] at hfind2
        apply PaymentService.verify_terminal_status_eq
        · exact hfind2
        · rfl
        · rfl
      | true =>
        cases hact : PaymentService.get_active_subscription tx.user_id st.subscriptions with
        | some sub =>
          rw [PaymentService.verify_success_update_eq hfind hterm2 hvs hact] at h
          injection h with h
          subst h
          have hfind2 := @find?_updateFirst _ (fun t => t.reference == reference)
            (fun _ =>
              { tx with
                status := PaymentStatus.SUCCESS
                completed_at := some now₁
                external_reference := vr₁.external_reference
                payment_metadata :=
                  metaSet tx.payment_metadata "verification_response" vr₁.raw_response
                subscription_id := some sub.id })
            st.transactions (fun a _ => hp)
          rw [hfind, Option.map_some'] at hfind2
          apply PaymentService.verify_terminal_status_eq
          · exact hfind2
          · rfl
          · rfl
        | none =>
          rw [PaymentService.verify_success_insert_eq hfind hterm2 hvs hact] at h
          injection h with h
          subst h
          have hfind2 := @find?_updateFirst _ (fun t => t.reference == reference)
            (fun _ =>
              { tx with
                status := PaymentStatus.SUCCESS
                completed_at := some now₁
                external_reference := vr₁.external_reference
                payment_metadata :=
                  metaSet tx.payment_metadata "verification_response" vr₁.raw_response
                subscription_id := some st.nextId })
            st.transactions (fun a _ => hp)
          rw [hfind, Option.map_some'] at hfind2
          apply PaymentService.verify_terminal_status_eq
          · exact hfind2
          · rfl
          · rfl

/-- Concrete pending transaction used to exercise claim C1. -/
def txC1 : PaymentTransaction :=
  { user_id := 7
    subscription_id := none
    amount := 700
    currency := "NGN"
    provider := PaymentProvider.PAYSTACK
    reference := "RL-A"
    external_reference := none
    status := PaymentStatus.PENDING
    plan := SubscriptionPlan.FOCUSED
    billing_cycle := BillingCycle.MONTHLY
    payment_metadata := []
    completed_at := none }

/-- Concrete database state used to exercise claim C1. -/
def stC1 : DBState :=
  { subscriptions := []
    transactions := [txC1]
    nextId := 5 }

/-- Concrete successful provider verification result used to exercise
claim C1. -/
def vrC1 : PaymentService.PaymentVerifyResult :=
  { success := true
    status := "success"
    amount := some 700
    currency := some "NGN"
    external_reference := some "PSK-1"
    error_message := none
    raw_response := some "verify_response" }

/-- Witness for C1_second_call_cached at a concrete pending
transaction: the first call succeeds and the second call returns the
cached-status outcome on an unchanged state. -/
theorem C1_witness :
    ∃ r₁, PaymentService.verify_and_activate_subscription "RL-A" vrC1 100 stC1 = Except.ok r₁ ∧
      PaymentService.verify_and_activate_subscription "RL-A" vrC1 100 r₁.state =
        Except.ok
          { state := r₁.state
            outcome :=
              { reference := "RL-A"
                status := r₁.outcome.status
                plan := none
                billing_cycle := none
                message := "Transaction already processed" }
            providerCalled := false } :=
  ⟨_, rfl, C1_second_call_cached stC1 "RL-A" vrC1 vrC1 100 100 _ rfl⟩

/-- Counterexample to C1 as stated: at a concrete pending transaction
the second verify_and_activate_subscription call does not return the
identical outcome as the first call (the message and the plan fields
differ), so only the weaker cached-outcome property holds. -/
theorem C1_counterexample :
    ∃ r₁ r₂, PaymentService.verify_and_activate_subscription "RL-A" vrC1 100 stC1 = Except.ok r₁ ∧
      PaymentService.verify_and_activate_subscription "RL-A" vrC1 100 r₁.state = Except.ok r₂ ∧
      r₁.outcome ≠ r₂.outcome := by
  refine ⟨_, _, rfl, rfl, ?_⟩
  decide

/-! ### Claim C2 -/

/-- Number of rows of a user with status ACTIVE. -/
def count_active (user_id : Nat) (subs : List Subscription) : Nat :=
  List.countP (fun s => s.user_id == user_id && s.status == SubscriptionStatus.ACTIVE) subs

/-- C2 (amended): when verify_and_activate_subscription moves a PENDING
transaction to SUCCESS it does not insert a new row and cancel the old
one; instead, when the user has an ACTIVE row (the newest by
created_at) that row is updated in place to the purchased plan and
cycle, with status ACTIVE, start_date now, end_date now plus the cycle
length and the transaction provider, auto_renew untouched; only when
the user has no ACTIVE row is a new ACTIVE row inserted (auto_renew
true).  Nothing is ever set to CANCELLED, and afterwards exactly one
row of the user is ACTIVE provided at most one was ACTIVE before. -/
theorem C2_success_activation (st : DBState) (reference : String)
    (vr : PaymentService.PaymentVerifyResult) (now : Nat) (tx : PaymentTransaction)
    (hfind : st.transactions.find? (fun t => t.reference == reference) = some tx)
    (hpend : tx.status = PaymentStatus.PENDING)
    (hs : vr.success = true) :
    ∃ r, PaymentService.verify_and_activate_subscription reference vr now st = Except.ok r ∧
      r.outcome.status = PaymentStatus.SUCCESS ∧
      (∀ s ∈ r.state.subscriptions, s.status = SubscriptionStatus.CANCELLED →
        s ∈ st.subscriptions) ∧
      ((∃ sub, PaymentService.get_active_subscription tx.user_id st.subscriptions = some sub ∧
          r.state.subscriptions.length = st.subscriptions.length ∧
          { sub with
            plan := tx.plan
            billing_cycle := some tx.billing_cycle
            status := SubscriptionStatus.ACTIVE
            start_date := now
            end_date := some (PaymentService.calculate_end_date (some tx.billing_cycle) now)
            payment_provider := some tx.provider } ∈ r.state.subscriptions) ∨
        (PaymentService.get_active_subscription tx.user_id st.subscriptions = none ∧
          r.state.subscriptions = st.subscriptions ++
            [{ id := st.nextId
               user_id := tx.user_id
               plan := tx.plan
               billing_cycle := some tx.billing_cycle
               status := SubscriptionStatus.ACTIVE
               start_date := now
               end_date := some (PaymentService.calculate_end_date (some tx.billing_cycle) now)
               auto_renew := true
               payment_provider := some tx.provider
               payment_token := none
               created_at := now }])) ∧
      (count_active tx.user_id st.subscriptions ≤ 1 →
        count_active tx.user_id r.state.subscriptions = 1) := by
  have hterm2 : (tx.status == PaymentStatus.SUCCESS || tx.status == PaymentStatus.FAILED) = false := by
    rw [hpend]
    rfl
  cases hact : PaymentService.get_active_subscription tx.user_id st.subscriptions with
  | some sub =>
    have hmem0 := pickFirstMax_mem hact
    have hmemf := List.mem_filter.mp hmem0
    have hmemsubs := hmemf.1
    have hq := hmemf.2
    simp only [Bool.and_eq_true, beq_iff_eq] at hq
    have hq1 := hq.1
    have hq2 := hq.2
    refine ⟨_, PaymentService.verify_success_update_eq hfind hterm2 hs hact, rfl, ?_, ?_, ?_⟩
    · intro s hs1 hc
      rcases mem_updateFirst hs1 with h | ⟨a, _, _, rfl⟩
      · exact h
      · simp at hc
    · refine Or.inl ⟨sub, rfl, updateFirst_length _ _ _, ?_⟩
      obtain ⟨a, _, _, hmemU⟩ :=
        @updated_mem_updateFirst _ (fun s => s == sub)
          (fun _ =>
            { sub with
              plan := tx.plan
              billing_cycle := some tx.billing_cycle
              status := SubscriptionStatus.ACTIVE
              start_date := now
              end_date := some (PaymentService.calculate_end_date (some tx.billing_cycle) now)
              payment_provider := some tx.provider })
          st.subscriptions ⟨sub, hmemsubs, by simp⟩
      exact hmemU
    · intro hle
      have hpres := @countP_updateFirst _ (fun s => s == sub)
        (fun _ =>
          { sub with
            plan := tx.plan
            billing_cycle := some tx.billing_cycle
            status := SubscriptionStatus.ACTIVE
            start_date := now
            end_date := some (PaymentService.calculate_end_date (some tx.billing_cycle) now)
            payment_provider := some tx.provider })
        (fun s => s.user_id == tx.user_id && s.status == SubscriptionStatus.ACTIVE)
        st.subscriptions
        (by
          intro a ha
          have ha2 : a = sub := by simpa using ha
          subst ha2
          simp [hq1, hq2])
      have hpos : 0 < List.countP
          (fun s => s.user_id == tx.user_id && s.status == SubscriptionStatus.ACTIVE)
          st.subscriptions :=
        List.countP_pos_iff.mpr ⟨sub, hmemsubs, by simp [hq1, hq2]⟩
      unfold count_active at hle ⊢
      rw [hpres]
      omega
  | none =>
    refine ⟨_, PaymentService.verify_success_insert_eq hfind hterm2 hs hact, rfl, ?_,
      Or.inr ⟨rfl, rfl⟩, ?_⟩
    · intro s hs1 hc
      rcases List.mem_append.mp hs1 with h | h
      · exact h
      · simp at h
        subst h
        simp at hc
    · intro _
      rw [PaymentService.get_active_subscription] at hact
      have hfil := pickFirstMax_eq_none_iff.mp hact
      unfold count_active
      rw [List.countP_append, List.countP_eq_length_filter, hfil]
      simp

/-- Concrete ACTIVE FREE row of user 7 used to exercise claim C2. -/
def subC2 : Subscription :=
  { id := 1
    user_id := 7
    plan := SubscriptionPlan.FREE
    billing_cycle := none
    status := SubscriptionStatus.ACTIVE
    start_date := 0
    end_date := none
    auto_renew := true
    payment_provider := none
    payment_token := none
    created_at := 10 }

/-- Concrete pending transaction of user 7 used to exercise claim C2. -/
def txC2 : PaymentTransaction :=
  { user_id := 7
    subscription_id := none
    amount := 700
    currency := "NGN"
    provider := PaymentProvider.PAYSTACK
    reference := "RL-B"
    external_reference := none
    status := PaymentStatus.PENDING
    plan := SubscriptionPlan.FOCUSED
    billing_cycle := BillingCycle.MONTHLY
    payment_metadata := []
    completed_at := none }

/-- Concrete database state used to exercise claim C2: user 7 already
holds one ACTIVE FREE subscription row. -/
def stC2 : DBState :=
  { subscriptions := [subC2]
    transactions := [txC2]
    nextId := 2 }

/-- Concrete successful provider verification result used to exercise
claim C2. -/
def vrC2 : PaymentService.PaymentVerifyResult :=
  { success := true
    status := "success"
    amount := some 700
    currency := some "NGN"
    external_reference := some "PSK-2"
    error_message := none
    raw_response := some "verify_response" }

/-- Witness for C2_success_activation at a concrete state with one
prior ACTIVE row. -/
theorem C2_witness :
    stC2.transactions.find? (fun t => t.reference == "RL-B") = some txC2 ∧
    txC2.status = PaymentStatus.PENDING ∧
    vrC2.success = true ∧
    (∃ r, PaymentService.verify_and_activate_subscription "RL-B" vrC2 100 stC2 = Except.ok r ∧
      r.outcome.status = PaymentStatus.SUCCESS ∧
      (∀ s ∈ r.state.subscriptions, s.status = SubscriptionStatus.CANCELLED →
        s ∈ stC2.subscriptions) ∧
      ((∃ sub, PaymentService.get_active_subscription txC2.user_id stC2.subscriptions = some sub ∧
          r.state.subscriptions.length = stC2.subscriptions.length ∧
          { sub with
            plan := txC2.plan
            billing_cycle := some txC2.billing_cycle
            status := SubscriptionStatus.ACTIVE
            start_date := 100
            end_date := some (PaymentService.calculate_end_date (some txC2.billing_cycle) 100)
            payment_provider := some txC2.provider } ∈ r.state.subscriptions) ∨
        (PaymentService.get_active_subscription txC2.user_id stC2.subscriptions = none ∧
          r.state.subscriptions = stC2.subscriptions ++
            [{ id := stC2.nextId
               user_id := txC2.user_id
               plan := txC2.plan
               billing_cycle := some txC2.billing_cycle
               status := SubscriptionStatus.ACTIVE
               start_date := 100
               end_date := some (PaymentService.calculate_end_date (some txC2.billing_cycle) 100)
               auto_renew := true
               payment_provider := some txC2.provider
               payment_token := none
               created_at := 100 }])) ∧
      (count_active txC2.user_id stC2.subscriptions ≤ 1 →
        count_active txC2.user_id r.state.subscriptions = 1)) :=
  ⟨rfl, rfl, rfl, C2_success_activation stC2 "RL-B" vrC2 100 txC2 rfl rfl rfl⟩

/-- Counterexample to C2 as stated: at a concrete state where user 7
already has an ACTIVE row, the successful verification does not insert
a new Subscription row (the table keeps a single row) and does not set
any row to CANCELLED; the existing row is upgraded in place. -/
theorem C2_counterexample :
    (PaymentService.verify_and_activate_subscription "RL-B" vrC2 100 stC2).map
        (fun r => (r.outcome.status, r.state.subscriptions.length,
          r.state.subscriptions.map (fun s => s.status))) =
      Except.ok (PaymentStatus.SUCCESS, 1, [SubscriptionStatus.ACTIVE]) := rfl

/-! ### Claim C3 -/

/-- C3 (amended): the Paystack and Stripe webhook endpoints reject
every request whose signature does not verify with 401 before any JSON
parsing (the response does not depend on the parse outcome), and the
OPay endpoint does so only for requests carrying a non-empty signature
header; a request with an absent or empty x-opay-signature header
skips verification entirely.  Tampering with the raw body so that its
digest changes while keeping the signature header makes
verify_webhook_signature return false. -/
theorem C3_webhook_signature_check (hmac : String → String → String)
    (construct_event_ok : String → String → Bool) (secret raw sig : String)
    (pp : Option PaymentController.PaystackEvent)
    (po : Option PaymentController.OpayEvent)
    (ps : Option PaymentController.StripeEvent) :
    (Providers.paystack_verify_webhook_signature hmac secret raw sig = false →
      PaymentController.paystack_webhook hmac secret raw sig pp =
        PaymentController.WebhookResponse.unauthorized) ∧
    (Providers.stripe_verify_webhook_signature construct_event_ok secret raw sig = false →
      PaymentController.stripe_webhook construct_event_ok secret raw sig ps =
        PaymentController.WebhookResponse.unauthorized) ∧
    (sig ≠ "" → Providers.opay_verify_webhook_signature hmac secret raw sig = false →
      PaymentController.opay_webhook hmac secret raw sig po =
        PaymentController.WebhookResponse.unauthorized) ∧
    (∀ raw2, secret ≠ "" → sig = hmac secret raw → hmac secret raw2 ≠ hmac secret raw →
      Providers.paystack_verify_webhook_signature hmac secret raw2 sig = false) := by
  refine ⟨?_, ?_, ?_, ?_⟩
  · intro hv
    simp [PaymentController.paystack_webhook, hv]
  · intro hv
    simp [PaymentController.stripe_webhook, hv]
  · intro hne hv
    simp [PaymentController.opay_webhook, hne, hv]
  · intro raw2 hsec hsig htamper
    subst hsig
    simp [Providers.paystack_verify_webhook_signature, hsec]
    intro h
    exact absurd h.symm htamper

/-- Witness for C3_webhook_signature_check with a concrete digest
function: invalid signatures are rejected by all three endpoints, and
on the Paystack scheme a body change that changes the digest falsifies
verification under the old header. -/
theorem C3_witness :
    PaymentController.paystack_webhook (fun s p => s ++ p) "sk" "body" "bad" none =
      PaymentController.WebhookResponse.unauthorized ∧
    PaymentController.stripe_webhook (fun _ _ => false) "sk" "body" "bad" none =
      PaymentController.WebhookResponse.unauthorized ∧
    PaymentController.opay_webhook (fun s p => s ++ p) "sk" "body" "bad" none =
      PaymentController.WebhookResponse.unauthorized ∧
    Providers.paystack_verify_webhook_signature (fun s p => s ++ p) "sk" "tampered" "skbody" =
      false :=
  ⟨(C3_webhook_signature_check (fun s p => s ++ p) (fun _ _ => false) "sk" "body" "bad"
      none none none).1 (by decide),
   (C3_webhook_signature_check (fun s p => s ++ p) (fun _ _ => false) "sk" "body" "bad"
      none none none).2.1 (by decide),
   (C3_webhook_signature_check (fun s p => s ++ p) (fun _ _ => false) "sk" "body" "bad"
      none none none).2.2.1 (by decide) (by decide),
   (C3_webhook_signature_check (fun s p => s ++ p) (fun _ _ => false) "sk" "body" "skbody"
      none none none).2.2.2 "tampered" (by decide) (by decide) (by decide)⟩

/-- Counterexample to C3 as stated: an OPay webhook request carrying an
empty signature header, whose signature therefore does not verify,
is not rejected with 401: it reaches event processing and invokes
verify_and_activate_subscription with the supplied reference. -/
theorem C3_counterexample :
    Providers.opay_verify_webhook_signature (fun s p => s ++ p) "sk" "tampered-body" "" = false ∧
    PaymentController.opay_webhook (fun s p => s ++ p) "sk" "tampered-body" ""
        (some { data_reference := some "RL-X", top_reference := none, data_status := some "success" }) =
      PaymentController.WebhookResponse.ok (some "RL-X") :=
  ⟨by decide, by decide⟩

/-! ### Claim C4 -/

/-- C4 (amended): only a provider that defines charge_subscription can
yield a recorded renewal transaction.  For an OPay row the charge call
returns the explicit unsupported-operation failure and a FAILED
renewal-tagged PaymentTransaction is recorded with the row left
unchanged and a failure notification; but for a Paystack or Stripe row
the charge_subscription attribute does not exist, the call raises
AttributeError, and the per-candidate error isolation of
process_due_subscriptions records no transaction at all. -/
theorem C4_renewal_charge_recording (sub : Subscription) (email reference : String) (now : Nat) :
    (sub.payment_provider = some PaymentProvider.OPAY →
      ∃ r, RecurringService.renew_subscription sub email reference now = Except.ok r ∧
        r.renewed = false ∧
        r.subscription = sub ∧
        r.notifications = ["failed"] ∧
        ∃ tx, r.txAdded = [tx] ∧ tx.status = PaymentStatus.FAILED ∧
          tx.payment_metadata =
            [("type", some "renewal"),
             ("error", some "Recurring payment is not yet supported for OPay provider.")]) ∧
    ((sub.payment_provider = some PaymentProvider.PAYSTACK ∨
        sub.payment_provider = some PaymentProvider.STRIPE) →
      RecurringService.process_renewal sub email reference now = (false, [], [])) := by
  constructor
  · intro hp
    refine ⟨RecurringService.renew_subscription_core sub reference
      (Providers.opay_charge_subscription (get_plan_amount sub.plan sub.billing_cycle) email
        (sub.payment_token.getD "") reference) now, ?_, rfl, rfl, rfl, ⟨_, rfl, rfl, rfl⟩⟩
    simp [RecurringService.renew_subscription, hp, Providers.provider_charge_subscription]
  · intro hor
    rcases hor with hp | hp <;>
      simp [RecurringService.process_renewal, RecurringService.renew_subscription, hp,
        Providers.provider_charge_subscription]

/-- Concrete due Paystack-provider subscription row used to exercise
claim C4. -/
def subC4 : Subscription :=
  { id := 3
    user_id := 9
    plan := SubscriptionPlan.FOCUSED
    billing_cycle := some BillingCycle.MONTHLY
    status := SubscriptionStatus.ACTIVE
    start_date := 0
    end_date := some 90
    auto_renew := true
    payment_provider := some PaymentProvider.PAYSTACK
    payment_token := some "tok-9"
    created_at := 50 }

/-- Concrete due OPay-provider subscription row used to exercise claim
C4. -/
def subC4o : Subscription :=
  { id := 4
    user_id := 10
    plan := SubscriptionPlan.FOCUSED
    billing_cycle := some BillingCycle.MONTHLY
    status := SubscriptionStatus.ACTIVE
    start_date := 0
    end_date := some 90
    auto_renew := true
    payment_provider := some PaymentProvider.OPAY
    payment_token := some "tok-10"
    created_at := 50 }

/-- Witness for C4_renewal_charge_recording at concrete OPay and
Paystack rows. -/
theorem C4_witness :
    subC4o.payment_provider = some PaymentProvider.OPAY ∧
    (∃ r, RecurringService.renew_subscription subC4o "u10@x.com" "RL-R2" 100 = Except.ok r ∧
      r.renewed = false ∧
      r.subscription = subC4o ∧
      r.notifications = ["failed"] ∧
      ∃ tx, r.txAdded = [tx] ∧ tx.status = PaymentStatus.FAILED ∧
        tx.payment_metadata =
          [("type", some "renewal"),
           ("error", some "Recurring payment is not yet supported for OPay provider.")]) ∧
    subC4.payment_provider = some PaymentProvider.PAYSTACK ∧
    RecurringService.process_renewal subC4 "u9@x.com" "RL-R3" 100 = (false, [], []) :=
  ⟨rfl,
   (C4_renewal_charge_recording subC4o "u10@x.com" "RL-R2" 100).1 rfl,
   rfl,
   (C4_renewal_charge_recording subC4 "u9@x.com" "RL-R3" 100).2 (Or.inl rfl)⟩

/-- Counterexample to C4 as stated: a genuine renewal candidate whose
provider is Paystack yields neither a SUCCESS nor a FAILED renewal
transaction: the charge_subscription lookup raises AttributeError and
nothing at all is recorded for the candidate. -/
theorem C4_counterexample :
    RecurringService.is_renewal_candidate 100 subC4 = true ∧
    RecurringService.renew_subscription subC4 "u9@x.com" "RL-R1" 100 =
      Except.error "AttributeError: charge_subscription" ∧
    RecurringService.process_renewal subC4 "u9@x.com" "RL-R1" 100 = (false, [], []) :=
  ⟨by decide, rfl, by decide⟩

/-! ### Claim C5 -/

/-- C5 (amended): a provider call that times out or raises does not
leave the transaction PENDING.  The Paystack adapter catches every
exception and converts it into a failure result with status error, and
verify_and_activate_subscription then moves the PENDING transaction to
the terminal status FAILED with the exception message recorded under
the error metadata key, returning the failure outcome. -/
theorem C5_provider_exception_marks_failed (st : DBState) (reference msg : String) (now : Nat)
    (tx : PaymentTransaction)
    (hfind : st.transactions.find? (fun t => t.reference == reference) = some tx)
    (hpend : tx.status = PaymentStatus.PENDING) :
    (Providers.paystack_verify_payment (Providers.HttpOutcome.exn msg)).success = false ∧
    ∃ r, PaymentService.verify_and_activate_subscription reference
        (Providers.paystack_verify_payment (Providers.HttpOutcome.exn msg)) now st =
      Except.ok r ∧
      r.outcome.status = PaymentStatus.FAILED ∧
      r.outcome.message = msg ∧
      r.providerCalled = true ∧
      r.state.transactions.find? (fun t => t.reference == reference) =
        some { tx with
               status := PaymentStatus.FAILED
               payment_metadata := metaSet tx.payment_metadata "error" (some msg) } := by
  have hterm2 : (tx.status == PaymentStatus.SUCCESS || tx.status == PaymentStatus.FAILED) = false := by
    rw [hpend]
    rfl
  have hs : (Providers.paystack_verify_payment (Providers.HttpOutcome.exn msg)).success = false := rfl
  refine ⟨rfl, _, PaymentService.verify_failure_eq hfind hterm2 hs, rfl, rfl, rfl, ?_⟩
  have hp := List.find?_some hfind
  have hfind2 := @find?_updateFirst _ (fun t => t.reference == reference)
    (fun _ =>
      { tx with
        status := PaymentStatus.FAILED
        payment_metadata := metaSet tx.payment_metadata "error"
          ((Providers.paystack_verify_payment (Providers.HttpOutcome.exn msg)).error_message) })
    st.transactions (fun a _ => hp)
  rw [hfind, Option.map_some'] at hfind2
  exact hfind2

/-- Concrete pending transaction used to exercise claim C5. -/
def txC5 : PaymentTransaction :=
  { user_id := 11
    subscription_id := none
    amount := 1500
    currency := "NGN"
    provider := PaymentProvider.PAYSTACK
    reference := "RL-T"
    external_reference := none
    status := PaymentStatus.PENDING
    plan := SubscriptionPlan.PRO
    billing_cycle := BillingCycle.MONTHLY
    payment_metadata := []
    completed_at := none }

/-- Concrete database state used to exercise claim C5. -/
def stC5 : DBState :=
  { subscriptions := []
    transactions := [txC5]
    nextId := 8 }

/-- Witness for C5_provider_exception_marks_failed at a concrete
pending transaction and a concrete timeout exception. -/
theorem C5_witness :
    stC5.transactions.find? (fun t => t.reference == "RL-T") = some txC5 ∧
    txC5.status = PaymentStatus.PENDING ∧
    ((Providers.paystack_verify_payment (Providers.HttpOutcome.exn "Request timed out")).success = false ∧
     ∃ r, PaymentService.verify_and_activate_subscription "RL-T"
        (Providers.paystack_verify_payment (Providers.HttpOutcome.exn "Request timed out")) 100 stC5 =
      Except.ok r ∧
      r.outcome.status = PaymentStatus.FAILED ∧
      r.outcome.message = "Request timed out" ∧
      r.providerCalled = true ∧
      r.state.transactions.find? (fun t => t.reference == "RL-T") =
        some { txC5 with
               status := PaymentStatus.FAILED
               payment_metadata := metaSet txC5.payment_metadata "error" (some "Request timed out") }) :=
  ⟨rfl, rfl, C5_provider_exception_marks_failed stC5 "RL-T" "Request timed out" 100 txC5 rfl rfl⟩

/-- Counterexample to C5 as stated: at a concrete PENDING transaction a
timed-out provider call does not leave the transaction PENDING; the
stored row ends FAILED, a terminal status. -/
theorem C5_counterexample :
    txC5.status = PaymentStatus.PENDING ∧
    (PaymentService.verify_and_activate_subscription "RL-T"
        (Providers.paystack_verify_payment (Providers.HttpOutcome.exn "Request timed out")) 100 stC5).map
      (fun r => (r.outcome.status, r.state.transactions.map (fun t => t.status))) =
    Except.ok (PaymentStatus.FAILED, [PaymentStatus.FAILED]) :=
  ⟨rfl, rfl⟩

/-! ### Claim C6 -/

/-- C6: in renew_subscription, once the provider charge call has
returned, a failed charge leaves the Subscription row completely
unchanged (every field keeps its prior value, so the row is selectable
again next run), records a FAILED renewal transaction and triggers the
renewal-failed notification; a successful charge sets end_date to now
plus the cycle length and status to ACTIVE, changing nothing else, and
triggers the renewal-success notification. -/
theorem C6_renewal_failure_frame (sub : Subscription) (reference : String)
    (charge_result : Providers.PaymentInitResult) (now : Nat) :
    (charge_result.success = false →
      (RecurringService.renew_subscription_core sub reference charge_result now).subscription = sub ∧
      (RecurringService.renew_subscription_core sub reference charge_result now).notifications = ["failed"] ∧
      (RecurringService.renew_subscription_core sub reference charge_result now).renewed = false ∧
      ∃ tx, (RecurringService.renew_subscription_core sub reference charge_result now).txAdded = [tx] ∧
        tx.status = PaymentStatus.FAILED) ∧
    (charge_result.success = true →
      (RecurringService.renew_subscription_core sub reference charge_result now).subscription =
        { sub with
          end_date := some (PaymentService.calculate_end_date sub.billing_cycle now)
          status := SubscriptionStatus.ACTIVE } ∧
      (RecurringService.renew_subscription_core sub reference charge_result now).notifications = ["renewed"] ∧
      (RecurringService.renew_subscription_core sub reference charge_result now).renewed = true) := by
  constructor
  · intro h
    refine ⟨by simp [RecurringService.renew_subscription_core, h],
            by simp [RecurringService.renew_subscription_core, h],
            by simp [RecurringService.renew_subscription_core, h],
            ⟨{ user_id := sub.user_id
               subscription_id := some sub.id
               amount := get_plan_amount sub.plan sub.billing_cycle
               currency := "NGN"
               provider := sub.payment_provider.getD PaymentProvider.PAYSTACK
               reference := reference
               external_reference := charge_result.external_reference
               status := if charge_result.success then PaymentStatus.SUCCESS else PaymentStatus.FAILED
               plan := sub.plan
               billing_cycle := sub.billing_cycle.getD BillingCycle.YEARLY
               payment_metadata := [("type", some "renewal"), ("error", charge_result.error_message)]
               completed_at := none },
             by simp [RecurringService.renew_subscription_core, h],
             by simp [h]⟩⟩
  · intro h
    refine ⟨by simp [RecurringService.renew_subscription_core, h],
            by simp [RecurringService.renew_subscription_core, h],
            by simp [RecurringService.renew_subscription_core, h]⟩

/-- Concrete due OPay subscription row used to exercise claim C6. -/
def subC6 : Subscription :=
  { id := 6
    user_id := 12
    plan := SubscriptionPlan.PRO
    billing_cycle := some BillingCycle.MONTHLY
    status := SubscriptionStatus.ACTIVE
    start_date := 10
    end_date := some 95
    auto_renew := true
    payment_provider := some PaymentProvider.OPAY
    payment_token := some "tok-12"
    created_at := 30 }

/-- Concrete failed charge result used to exercise claim C6. -/
def chargeFailC6 : Providers.PaymentInitResult :=
  { success := false
    authorization_url := none
    external_reference := none
    error_message := some "Insufficient funds" }

/-- Concrete successful charge result used to exercise claim C6. -/
def chargeOkC6 : Providers.PaymentInitResult :=
  { success := true
    authorization_url := none
    external_reference := some "OP-77"
    error_message := none }

/-- Witness for C6_renewal_failure_frame at a concrete row with a
failed and a successful charge result. -/
theorem C6_witness :
    chargeFailC6.success = false ∧
    ((RecurringService.renew_subscription_core subC6 "RL-R6" chargeFailC6 100).subscription = subC6 ∧
      (RecurringService.renew_subscription_core subC6 "RL-R6" chargeFailC6 100).notifications = ["failed"] ∧
      (RecurringService.renew_subscription_core subC6 "RL-R6" chargeFailC6 100).renewed = false ∧
      ∃ tx, (RecurringService.renew_subscription_core subC6 "RL-R6" chargeFailC6 100).txAdded = [tx] ∧
        tx.status = PaymentStatus.FAILED) ∧
    chargeOkC6.success = true ∧
    ((RecurringService.renew_subscription_core subC6 "RL-R7" chargeOkC6 100).subscription =
      { subC6 with
        end_date := some (PaymentService.calculate_end_date subC6.billing_cycle 100)
        status := SubscriptionStatus.ACTIVE } ∧
      (RecurringService.renew_subscription_core subC6 "RL-R7" chargeOkC6 100).notifications = ["renewed"] ∧
      (RecurringService.renew_subscription_core subC6 "RL-R7" chargeOkC6 100).renewed = true) :=
  ⟨rfl,
   (C6_renewal_failure_frame subC6 "RL-R6" chargeFailC6 100).1 rfl,
   rfl,
   (C6_renewal_failure_frame subC6 "RL-R7" chargeOkC6 100).2 rfl⟩

/-! ### Claim C7 -/

/-- Concrete ACTIVE newer renewal candidate of user 14 used to exercise
claim C7. -/
def subC7a : Subscription :=
  { id := 21
    user_id := 14
    plan := SubscriptionPlan.FOCUSED
    billing_cycle := some BillingCycle.MONTHLY
    status := SubscriptionStatus.ACTIVE
    start_date := 0
    end_date := some 90
    auto_renew := true
    payment_provider := some PaymentProvider.OPAY
    payment_token := some "t14"
    created_at := 70 }

/-- Concrete EXPIRED older renewal candidate of user 14 used to
exercise claim C7. -/
def subC7e : Subscription :=
  { id := 20
    user_id := 14
    plan := SubscriptionPlan.FOCUSED
    billing_cycle := some BillingCycle.MONTHLY
    status := SubscriptionStatus.EXPIRED
    start_date := 0
    end_date := some 60
    auto_renew := true
    payment_provider := some PaymentProvider.OPAY
    payment_token := some "t14"
    created_at := 40 }

/-- C7: the scheduler selection keeps at most one candidate per user
(pairwise distinct user ids), every selected row is a candidate from
the table whose deduplication key (status ACTIVE first, then newest
created_at) is maximal among the candidates of the same user, and in
particular for a user holding one ACTIVE newer row and one EXPIRED
older row only the ACTIVE one is selected. -/
theorem C7_renewal_selection (subs : List Subscription) (now : Nat) :
    (RecurringService.select_renewals subs now).Pairwise (fun a b => a.user_id ≠ b.user_id) ∧
    (∀ s ∈ RecurringService.select_renewals subs now,
      RecurringService.is_renewal_candidate now s = true ∧ s ∈ subs ∧
      ∀ t ∈ subs, RecurringService.is_renewal_candidate now t = true →
        t.user_id = s.user_id →
        keyGt (RecurringService.renewal_key t) (RecurringService.renewal_key s) = false) ∧
    RecurringService.select_renewals [subC7a, subC7e] 100 = [subC7a] := by
  refine ⟨?_, ?_, by decide⟩
  · apply filterMap_pairwise_ne
    · intro u s hgs
      have hmem := pickFirstMax_mem hgs
      have h2 := (List.mem_filter.mp hmem).2
      simpa using h2
    · exact dedupKeys_nodup _
  · intro s hs
    simp only [RecurringService.select_renewals] at hs
    obtain ⟨u, hu, hgu⟩ := List.mem_filterMap.mp hs
    have hm := pickFirstMax_mem hgu
    have hmf := List.mem_filter.mp hm
    have hcf := List.mem_filter.mp hmf.1
    refine ⟨hcf.2, hcf.1, ?_⟩
    intro t ht htc htu
    apply pickFirstMax_max hgu
    refine List.mem_filter.mpr ⟨List.mem_filter.mpr ⟨ht, htc⟩, ?_⟩
    rw [htu]
    exact hmf.2

/-- Witness for C7_renewal_selection at the concrete two-row table of
user 14. -/
theorem C7_witness :
    RecurringService.is_renewal_candidate 100 subC7a = true ∧
    subC7a ∈ RecurringService.select_renewals [subC7a, subC7e] 100 ∧
    keyGt (RecurringService.renewal_key subC7e) (RecurringService.renewal_key subC7a) = false :=
  ⟨by decide, by decide,
   ((C7_renewal_selection [subC7a, subC7e] 100).2.1 subC7a (by decide)).2.2 subC7e
     (by decide) (by decide) rfl⟩

/-! ### Claim C8 -/

/-- Concrete ACTIVE PRO row of user 15 in its billing period, used to
exercise claim C8. -/
def subC8 : Subscription :=
  { id := 30
    user_id := 15
    plan := SubscriptionPlan.PRO
    billing_cycle := some BillingCycle.MONTHLY
    status := SubscriptionStatus.ACTIVE
    start_date := 20
    end_date := some 100
    auto_renew := true
    payment_provider := some PaymentProvider.PAYSTACK
    payment_token := none
    created_at := 20 }

/-- Concrete database state used to exercise claim C8. -/
def stC8 : DBState :=
  { subscriptions := [subC8]
    transactions := []
    nextId := 31 }

/-- C8 (amended): cancelling sets the effective row to CANCELLED with
auto_renew false while every other field, end_date included, keeps its
prior value, and returns the end_date; but a second cancel of the same
already-cancelled subscription during its grace period does not fail
with a conflict error: the grace-period row is found again by
get_active_subscription and is re-cancelled successfully. -/
theorem C8_cancel_semantics (user_id now : Nat) (st : DBState) (sub : Subscription)
    (hget : SubscriptionService.get_active_subscription user_id now st.subscriptions = some sub)
    (hplan : sub.plan ≠ SubscriptionPlan.FREE) :
    (∃ stA out, SubscriptionService.cancel_subscription user_id now st = Except.ok (stA, out) ∧
      out.end_date = sub.end_date ∧
      stA.subscriptions.length = st.subscriptions.length ∧
      { sub with status := SubscriptionStatus.CANCELLED, auto_renew := false } ∈ stA.subscriptions ∧
      ∀ s ∈ stA.subscriptions,
        s ∈ st.subscriptions ∨
          s = { sub with status := SubscriptionStatus.CANCELLED, auto_renew := false }) ∧
    (∃ st₁ out₁ st₂ out₂,
      SubscriptionService.cancel_subscription 15 50 stC8 = Except.ok (st₁, out₁) ∧
      SubscriptionService.cancel_subscription 15 50 st₁ = Except.ok (st₂, out₂)) := by
  constructor
  · have hne : (sub.plan == SubscriptionPlan.FREE) = false := beq_eq_false_iff_ne.mpr hplan
    have hmemsubs : sub ∈ st.subscriptions := (List.mem_filter.mp (pickFirstMax_mem hget)).1
    have heq : SubscriptionService.cancel_subscription user_id now st =
        Except.ok
          ({ st with
             subscriptions :=
               updateFirst (fun s => s == sub)
                 (fun _ => { sub with status := SubscriptionStatus.CANCELLED, auto_renew := false })
                 st.subscriptions },
           { message := "Subscription cancelled. Access continues until end of billing period."
             end_date := sub.end_date }) := by
      simp [SubscriptionService.cancel_subscription, hget, hne]
    refine ⟨_, _, heq, rfl, updateFirst_length _ _ _, ?_, ?_⟩
    · obtain ⟨a, _, _, hmemU⟩ :=
        @updated_mem_updateFirst _ (fun s => s == sub)
          (fun _ => { sub with status := SubscriptionStatus.CANCELLED, auto_renew := false })
          st.subscriptions ⟨sub, hmemsubs, by simp⟩
      exact hmemU
    · intro s hs1
      rcases mem_updateFirst hs1 with h | ⟨a, _, _, rfl⟩
      · exact Or.inl h
      · exact Or.inr rfl
  · exact ⟨_, _, _, _, rfl, rfl⟩

/-- Witness for C8_cancel_semantics at the concrete one-row state of
user 15. -/
theorem C8_witness :
    SubscriptionService.get_active_subscription 15 50 stC8.subscriptions = some subC8 ∧
    subC8.plan ≠ SubscriptionPlan.FREE ∧
    ((∃ stA out, SubscriptionService.cancel_subscription 15 50 stC8 = Except.ok (stA, out) ∧
      out.end_date = subC8.end_date ∧
      stA.subscriptions.length = stC8.subscriptions.length ∧
      { subC8 with status := SubscriptionStatus.CANCELLED, auto_renew := false } ∈ stA.subscriptions ∧
      ∀ s ∈ stA.subscriptions,
        s ∈ stC8.subscriptions ∨
          s = { subC8 with status := SubscriptionStatus.CANCELLED, auto_renew := false }) ∧
    (∃ st₁ out₁ st₂ out₂,
      SubscriptionService.cancel_subscription 15 50 stC8 = Except.ok (st₁, out₁) ∧
      SubscriptionService.cancel_subscription 15 50 st₁ = Except.ok (st₂, out₂))) :=
  ⟨rfl, by decide, C8_cancel_semantics 15 50 stC8 subC8 rfl (by decide)⟩

/-- Counterexample to C8 as stated: at the concrete one-row state the
first cancel leaves the row CANCELLED with auto_renew false and
end_date unchanged, and a second cancel of the same already-cancelled
subscription succeeds again instead of failing with a conflict
error. -/
theorem C8_counterexample :
    ∃ st₁ out₁ st₂ out₂,
      SubscriptionService.cancel_subscription 15 50 stC8 = Except.ok (st₁, out₁) ∧
      st₁.subscriptions.map (fun s => (s.status, s.auto_renew, s.end_date)) =
        [(SubscriptionStatus.CANCELLED, false, some 100)] ∧
      SubscriptionService.cancel_subscription 15 50 st₁ = Except.ok (st₂, out₂) :=
  ⟨_, _, _, _, rfl, rfl, rfl⟩

/-! ### Claim C9 -/

/-- Decision of a check_module_access call equals the decision body at
the effectively used plan. -/
theorem check_module_access_allowed (plan_arg : Option SubscriptionPlan) (user_id : Nat)
    (subs : List Subscription) (now : Nat) (course_price : Int)
    (module_is_free course_in_learning_path : Bool) :
    (AccessControl.check_module_access plan_arg user_id subs now course_price
        module_is_free course_in_learning_path).allowed =
      AccessControl.module_access_decision
        (AccessControl.resolved_plan plan_arg user_id now subs) course_price
        module_is_free course_in_learning_path := by
  cases plan_arg <;> rfl

/-- C9: check_module_access allows every course and module when the
resolved plan is PRO; and when the resolved plan is FREE, a course
with a non-zero price and a module not marked free is denied, whatever
the learning-path membership. -/
theorem C9_module_access (plan_arg : Option SubscriptionPlan) (user_id : Nat)
    (subs : List Subscription) (now : Nat) (course_price : Int)
    (module_is_free course_in_learning_path : Bool) :
    (AccessControl.resolved_plan plan_arg user_id now subs = SubscriptionPlan.PRO →
      (AccessControl.check_module_access plan_arg user_id subs now course_price
        module_is_free course_in_learning_path).allowed = true) ∧
    (AccessControl.resolved_plan plan_arg user_id now subs = SubscriptionPlan.FREE →
      course_price ≠ 0 → module_is_free = false →
      (AccessControl.check_module_access plan_arg user_id subs now course_price
        module_is_free course_in_learning_path).allowed = false) := by
  constructor
  · intro hpro
    rw [check_module_access_allowed, hpro]
    rfl
  · intro hfree hprice hmod
    rw [check_module_access_allowed, hfree, hmod]
    simp [AccessControl.module_access_decision, hprice]

/-- Witness for C9_module_access with an explicit PRO plan and an
explicit FREE plan on a priced course with a paid module. -/
theorem C9_witness :
    AccessControl.resolved_plan (some SubscriptionPlan.PRO) 1 0 [] = SubscriptionPlan.PRO ∧
    (AccessControl.check_module_access (some SubscriptionPlan.PRO) 1 [] 0 300 false false).allowed =
      true ∧
    AccessControl.resolved_plan (some SubscriptionPlan.FREE) 1 0 [] = SubscriptionPlan.FREE ∧
    (300 : Int) ≠ 0 ∧
    (AccessControl.check_module_access (some SubscriptionPlan.FREE) 1 [] 0 300 false true).allowed =
      false :=
  ⟨rfl,
   (C9_module_access (some SubscriptionPlan.PRO) 1 [] 0 300 false false).1 rfl,
   rfl,
   by decide,
   (C9_module_access (some SubscriptionPlan.FREE) 1 [] 0 300 false true).2 rfl (by decide) rfl⟩

/-! ### Claim C10 -/

/-- C10: with an explicitly supplied plan argument check_module_access
performs no subscription lookup and its decision is fully determined
by the plan, the course price, the module free flag and (only for a
FOCUSED plan) the learning-path membership: the stored subscription
rows, the user and the clock are irrelevant, and for a non-FOCUSED
plan the learning-path membership is irrelevant too. -/
theorem C10_supplied_plan_determines (plan : SubscriptionPlan) (u₁ u₂ n₁ n₂ : Nat)
    (subs₁ subs₂ : List Subscription) (course_price : Int)
    (module_is_free lp₁ lp₂ : Bool) :
    AccessControl.check_module_access (some plan) u₁ subs₁ n₁ course_price module_is_free lp₁ =
      AccessControl.check_module_access (some plan) u₂ subs₂ n₂ course_price module_is_free lp₁ ∧
    (AccessControl.check_module_access (some plan) u₁ subs₁ n₁ course_price module_is_free
        lp₁).looked_up_subscription = false ∧
    (plan ≠ SubscriptionPlan.FOCUSED →
      (AccessControl.check_module_access (some plan) u₁ subs₁ n₁ course_price module_is_free
          lp₁).allowed =
        (AccessControl.check_module_access (some plan) u₁ subs₁ n₁ course_price module_is_free
          lp₂).allowed) := by
  refine ⟨rfl, rfl, ?_⟩
  intro hnf
  cases plan with
  | FREE => rfl
  | FOCUSED => exact absurd rfl hnf
  | PRO => rfl

/-- Witness for C10_supplied_plan_determines at a PRO plan with
different stored subscription rows and different learning-path
memberships. -/
theorem C10_witness :
    AccessControl.check_module_access (some SubscriptionPlan.PRO) 1 [] 0 500 false true =
      AccessControl.check_module_access (some SubscriptionPlan.PRO) 2 [subC2] 9 500 false true ∧
    (AccessControl.check_module_access (some SubscriptionPlan.PRO) 1 [] 0 500 false
        true).looked_up_subscription = false ∧
    SubscriptionPlan.PRO ≠ SubscriptionPlan.FOCUSED ∧
    (AccessControl.check_module_access (some SubscriptionPlan.PRO) 1 [] 0 500 false true).allowed =
      (AccessControl.check_module_access (some SubscriptionPlan.PRO) 1 [] 0 500 false
        false).allowed :=
  ⟨(C10_supplied_plan_determines SubscriptionPlan.PRO 1 2 0 9 [] [subC2] 500 false true false).1,
   (C10_supplied_plan_determines SubscriptionPlan.PRO 1 2 0 9 [] [subC2] 500 false true false).2.1,
   by decide,
   (C10_supplied_plan_determines SubscriptionPlan.PRO 1 2 0 9 [] [subC2] 500 false true
     false).2.2 (by decide)⟩
